import Mathlib

/-!
Verification of the packpals-staff dashboard against its specification.

The definitions below are shallow embeddings of the TypeScript source:
pure functions become Lean functions, stateful component logic becomes
explicit state passing or step functions over a state type, remote calls
are represented by the list of calls a handler emits together with an
event parameter carrying the remote outcome, and fallible code returns
`Except` or `Option`.  JavaScript string truthiness (empty string and
null are falsy) is modelled explicitly where the source relies on it.
-/

namespace PackPals

/-- JavaScript truthiness of a nullable string: `null`/`undefined` and the
empty string are falsy, every other string is truthy. -/
def jsTruthy : Option String → Bool
  | none => false
  | some s => !(s == "")

/-- JavaScript `a || b` on nullable strings: returns `a` when it is truthy,
otherwise `b`. -/
def jsOrElse (a : Option String) (b : String) : String :=
  match a with
  | none => b
  | some s => if s == "" then b else s

/-! ## Notification list (useStaffSignalR hook)

Embedding of `handleStaffNotification` from the `useStaffSignalR` hook:
`setNotifications(prev => [newNotification, ...prev].slice(0, 50))`,
`setUnreadCount(prev => prev + 1)`, `setLastNotification(newNotification)`.
-/

/-- The `StaffNotification` record built by the hook from an inbound push
message (type, display message, opaque payload, timestamp). -/
structure StaffNotification where
  type : String
  message : String
  data : String
  timestamp : String
deriving DecidableEq, Repr

/-- The pieces of `useStaffSignalR` state touched by an inbound message. -/
structure HookState where
  notifications : List StaffNotification
  unreadCount : Nat
  lastNotification : Option StaffNotification
deriving DecidableEq, Repr

/-- `handleStaffNotification`: prepend the new notification, keep the first
50 entries, bump the unread counter, remember the latest notification. -/
def handleStaffNotification (st : HookState) (n : StaffNotification) : HookState :=
  { st with
    notifications := (n :: st.notifications).take 50
    unreadCount := st.unreadCount + 1
    lastNotification := some n }

/-- The hook's initial state (`useState([])`, `useState(0)`, `useState(null)`). -/
def initialHookState : HookState :=
  { notifications := [], unreadCount := 0, lastNotification := none }

/-- State of the hook after an arbitrary arrival sequence of push messages. -/
def runHook (msgs : List StaffNotification) : HookState :=
  msgs.foldl handleStaffNotification initialHookState

theorem take_append_take {α : Type} (a b : List α) (n : Nat) :
    (a ++ b.take n).take n = (a ++ b).take n := by
  rw [List.take_append_eq_append_take, List.take_append_eq_append_take, List.take_take]
  rw [Nat.min_eq_left (Nat.sub_le n a.length)]

theorem hook_notifications_foldl (msgs : List StaffNotification) (st : HookState)
    (h : st.notifications.length ≤ 50) :
    (msgs.foldl handleStaffNotification st).notifications
      = (msgs.reverse ++ st.notifications).take 50 := by
  induction msgs generalizing st with
  | nil =>
      simp [List.take_of_length_le h]
  | cons m ms ih =>
      have hlen : ((m :: st.notifications).take 50).length ≤ 50 := by
        simpa using List.length_take_le 50 (m :: st.notifications)
      have step : (ms.foldl handleStaffNotification (handleStaffNotification st m)).notifications
          = (ms.reverse ++ ((m :: st.notifications).take 50)).take 50 := by
        simpa [handleStaffNotification] using ih (handleStaffNotification st m) hlen
      have key : (ms.reverse ++ ((m :: st.notifications).take 50)).take 50
          = (ms.reverse ++ (m :: st.notifications)).take 50 :=
        take_append_take ms.reverse (m :: st.notifications) 50
      simp only [List.foldl_cons, step, key, List.reverse_cons, List.append_assoc,
        List.cons_append, List.nil_append]

/-- Claim C3: for any sequence of inbound push messages the in-memory
notification list holds at most 50 entries, newest first: it is exactly the
reversal of the arrival sequence truncated to the 50 most recent messages,
so a new arrival at a full list evicts the oldest entry and the relative
arrival order of the retained entries is preserved. -/
theorem c3_notification_list_capped (msgs : List StaffNotification) :
    (runHook msgs).notifications = (msgs.reverse).take 50 ∧
    (runHook msgs).notifications.length ≤ 50 := by
  have h := hook_notifications_foldl msgs initialHookState (by simp [initialHookState])
  constructor
  · simpa [runHook, initialHookState] using h
  · have : (runHook msgs).notifications = (msgs.reverse).take 50 := by
      simpa [runHook, initialHookState] using h
    rw [this]
    simpa using List.length_take_le 50 msgs.reverse

/-! ## StaffSignalRService: reconnect policy, start, stop

Embedding of `staffSignalRService.ts`.  The automatic-reconnect delay
policy is the function passed to `withAutomaticReconnect`; the manual
retry logic is the `onclose` handler (fields `isConnected`,
`reconnectAttempts`, `maxReconnectAttempts`); `start`/`stop`/
`joinStaffGroup` are modelled as functions that also return the list of
actions they perform on the underlying connection.
-/

/-- The progressive backoff table from `withAutomaticReconnect`:
`const delays = [2000, 5000, 10000, 20000, 30000]`. -/
def reconnectDelays : List Nat := [2000, 5000, 10000, 20000, 30000]

/-- `nextRetryDelayInMilliseconds(retryContext)`: index the delay table at
`Math.min(retryContext.previousRetryCount, delays.length - 1)`. -/
def nextRetryDelayInMilliseconds (previousRetryCount : Nat) : Nat :=
  reconnectDelays.getD (min previousRetryCount (reconnectDelays.length - 1)) 0

/-- `maxReconnectAttempts = 5` from the service. -/
def maxReconnectAttempts : Nat := 5

/-- `reconnectDelay = 5000` (the fixed delay of the manual retry). -/
def manualReconnectDelay : Nat := 5000

/-- The service fields the `onclose` handler reads and writes. -/
structure ReconnectState where
  isConnected : Bool
  reconnectAttempts : Nat
deriving DecidableEq, Repr

/-- The `onclose` handler: clears `isConnected`; when
`reconnectAttempts < maxReconnectAttempts` it increments the counter and
schedules one `start()` via `setTimeout`.  The boolean of the result
records whether a retry was scheduled. -/
def oncloseHandler (s : ReconnectState) : ReconnectState × Bool :=
  let s1 := { s with isConnected := false }
  if s1.reconnectAttempts < maxReconnectAttempts then
    ({ s1 with reconnectAttempts := s1.reconnectAttempts + 1 }, true)
  else
    (s1, false)

/-- Effect of one (manual or scheduled) `start()` attempt on the `onclose`
state: on success `isConnected := true` and the counter resets to 0, on
failure `isConnected := false`. -/
def startConnectionAttempt (s : ReconnectState) (succeeded : Bool) : ReconnectState :=
  if succeeded then { s with isConnected := true, reconnectAttempts := 0 }
  else { s with isConnected := false }

theorem reconnectDelays_mono :
    ∀ i < 5, ∀ j < 5, i ≤ j → reconnectDelays.getD i 0 ≤ reconnectDelays.getD j 0 := by
  decide

theorem reconnectDelays_capped : ∀ i < 5, reconnectDelays.getD i 0 ≤ 30000 := by
  decide

/-- Claim C2: after an unexpected connection drop the reconnect delay
sequence is non-decreasing and capped (2s, 5s, 10s, 20s, 30s); the
service's own retry loop schedules no further attempt once
`maxReconnectAttempts` is reached, every close leaves `isConnected`
false, and only a successful `start()` sets it true again. -/
theorem c2_reconnect_backoff_and_giveup :
    (∀ n m : Nat, n ≤ m →
        nextRetryDelayInMilliseconds n ≤ nextRetryDelayInMilliseconds m) ∧
    (∀ n : Nat, nextRetryDelayInMilliseconds n ≤ 30000) ∧
    ([0, 1, 2, 3, 4].map nextRetryDelayInMilliseconds = [2000, 5000, 10000, 20000, 30000]) ∧
    (∀ s : ReconnectState, maxReconnectAttempts ≤ s.reconnectAttempts →
        (oncloseHandler s).2 = false ∧
        (oncloseHandler s).1 = { s with isConnected := false }) ∧
    (∀ s : ReconnectState, (oncloseHandler s).1.isConnected = false) ∧
    (∀ s : ReconnectState, (startConnectionAttempt s true).isConnected = true ∧
        (startConnectionAttempt s false).isConnected = false) := by
  refine ⟨?_, ?_, by decide, ?_, ?_, ?_⟩
  · intro n m h
    have h1 : min n 4 < 5 := Nat.lt_succ_of_le (Nat.min_le_right n 4)
    have h2 : min m 4 < 5 := Nat.lt_succ_of_le (Nat.min_le_right m 4)
    have h3 : min n 4 ≤ min m 4 := min_le_min h (le_refl 4)
    exact reconnectDelays_mono (min n 4) h1 (min m 4) h2 h3
  · intro n
    have h1 : min n 4 < 5 := Nat.lt_succ_of_le (Nat.min_le_right n 4)
    exact reconnectDelays_capped (min n 4) h1
  · intro s h
    have hnot : ¬ s.reconnectAttempts < maxReconnectAttempts := Nat.not_lt.mpr h
    simp [oncloseHandler, hnot]
  · intro s
    by_cases h : s.reconnectAttempts < maxReconnectAttempts <;> simp [oncloseHandler, h]
  · intro s
    simp [startConnectionAttempt]

/-- Witness for C2 at concrete inputs. -/
theorem c2_witness :
    nextRetryDelayInMilliseconds 1 ≤ nextRetryDelayInMilliseconds 9 ∧
    nextRetryDelayInMilliseconds 9 ≤ 30000 ∧
    (oncloseHandler { isConnected := true, reconnectAttempts := 5 }).2 = false :=
  ⟨c2_reconnect_backoff_and_giveup.1 1 9 (by norm_num),
   c2_reconnect_backoff_and_giveup.2.1 9,
   (c2_reconnect_backoff_and_giveup.2.2.2.1
      { isConnected := true, reconnectAttempts := 5 } (by decide)).1⟩

/-- SignalR `HubConnectionState` as exposed by `connection.state`. -/
inductive HubConnectionState
  | Disconnected
  | Connecting
  | Connected
  | Reconnecting
deriving DecidableEq, Repr

/-- Observable actions of the service on the underlying connection:
starting it, stopping it, or invoking a named hub method. -/
inductive ConnAction
  | startConnection
  | stopConnection
  | invokeHub (method : String)
deriving DecidableEq, Repr

/-- Whether an action is a client-to-server hub invocation. -/
def ConnAction.isHubInvocation : ConnAction → Bool
  | invokeHub _ => true
  | _ => false

/-- The mutable fields of `StaffSignalRService` that `start`/`stop` touch:
the connection object (with its state) and the service's own flags. -/
structure ServiceState where
  connection : Option HubConnectionState
  isConnected : Bool
  reconnectAttempts : Nat
deriving DecidableEq, Repr

/-- `joinStaffGroup()`: returns without invoking anything when there is no
connection or `isConnected` is false; otherwise invokes `JoinStaffGroup`
(whose failure is caught and logged). -/
def joinStaffGroup (s : ServiceState) : List ConnAction :=
  match s.connection with
  | none => []
  | some _ => if s.isConnected then [ConnAction.invokeHub "JoinStaffGroup"] else []

/-- `start()`: lazily rebuilds the connection object when absent, then only
when `connection.state === 'Disconnected'` starts the connection and, on
success, sets `isConnected`, resets `reconnectAttempts`, and joins the
staff group; a start failure clears `isConnected` and is re-thrown.
`startSucceeds` is the outcome of the awaited `connection.start()`; the
result carries the new state, the emitted actions, and whether the method
threw. -/
def serviceStart (s : ServiceState) (startSucceeds : Bool) :
    ServiceState × List ConnAction × Bool :=
  let s0 := match s.connection with
    | none => { s with connection := some HubConnectionState.Disconnected }
    | some _ => s
  match s0.connection with
  | some HubConnectionState.Disconnected =>
      if startSucceeds then
        let s1 := { s0 with connection := some HubConnectionState.Connected,
                            isConnected := true, reconnectAttempts := 0 }
        (s1, ConnAction.startConnection :: joinStaffGroup s1, false)
      else
        ({ s0 with isConnected := false }, [ConnAction.startConnection], true)
  | _ => (s0, [], false)

/-- `stop()`: a no-op without a connection; otherwise awaits
`connection.stop()` with any error caught (the method never throws); on
success the connection reaches `Disconnected` and `isConnected` is
cleared.  No hub method is ever invoked by `stop`. -/
def serviceStop (s : ServiceState) (stopSucceeds : Bool) :
    ServiceState × List ConnAction :=
  match s.connection with
  | none => (s, [])
  | some _ =>
      if stopSucceeds then
        ({ s with connection := some HubConnectionState.Disconnected, isConnected := false },
          [ConnAction.stopConnection])
      else
        (s, [ConnAction.stopConnection])

/-- Claim C7: calling `start()` while the connection state is already
`Connected` changes nothing, starts nothing, invokes nothing and does not
throw, so the staff-group membership is never duplicated. -/
theorem c7_start_idempotent_when_connected (s : ServiceState) (startSucceeds : Bool)
    (h : s.connection = some HubConnectionState.Connected) :
    serviceStart s startSucceeds = (s, [], false) := by
  simp [serviceStart, h]

/-- Witness for C7 at a concrete connected state. -/
theorem c7_witness :
    serviceStart
        { connection := some HubConnectionState.Connected,
          isConnected := true, reconnectAttempts := 0 } true
      = ({ connection := some HubConnectionState.Connected,
           isConnected := true, reconnectAttempts := 0 }, [], false) :=
  c7_start_idempotent_when_connected
    { connection := some HubConnectionState.Connected,
      isConnected := true, reconnectAttempts := 0 } true rfl

/-- Counterexample to claim C8 as stated: at a live connected service,
`stop()` emits exactly the connection close and no hub invocation at all,
so no best-effort leave of the staff broadcast group is performed (the
service has no leave invocation anywhere). -/
theorem c8_counterexample :
    (serviceStop
        { connection := some HubConnectionState.Connected,
          isConnected := true, reconnectAttempts := 0 } true).2
      = [ConnAction.stopConnection] ∧
    ((serviceStop
        { connection := some HubConnectionState.Connected,
          isConnected := true, reconnectAttempts := 0 } true).2.all
      fun a => !a.isHubInvocation) = true := by
  decide

/-- Claim C8 as amended: `stop()` closes the connection without any hub
invocation (in particular no group leave), is a no-op when no connection
object exists, never throws (stop errors are caught), and leaves the
state unchanged when the client is already disconnected. -/
theorem c8_stop_amended (s : ServiceState) (stopSucceeds : Bool) :
    ((serviceStop s stopSucceeds).2.all fun a => !a.isHubInvocation) = true ∧
    (s.connection = none → serviceStop s stopSucceeds = (s, [])) ∧
    (s.isConnected = false → s.connection = some HubConnectionState.Disconnected →
      (serviceStop s stopSucceeds).1 = s) := by
  refine ⟨?_, ?_, ?_⟩
  · cases h : s.connection with
    | none => simp [serviceStop, h]
    | some st =>
        cases stopSucceeds <;> simp [serviceStop, h, ConnAction.isHubInvocation]
  · intro h
    simp [serviceStop, h]
  · intro h1 h2
    obtain ⟨c, ic, ra⟩ := s
    simp only at h1 h2
    subst h1
    subst h2
    cases stopSucceeds <;> simp [serviceStop]

/-- Witness for C8 (amended) at a concrete already-disconnected state. -/
theorem c8_witness :
    ((serviceStop
        { connection := some HubConnectionState.Disconnected,
          isConnected := false, reconnectAttempts := 2 } true).2.all
      fun a => !a.isHubInvocation) = true ∧
    (serviceStop
        { connection := some HubConnectionState.Disconnected,
          isConnected := false, reconnectAttempts := 2 } true).1
      = { connection := some HubConnectionState.Disconnected,
          isConnected := false, reconnectAttempts := 2 } :=
  ⟨(c8_stop_amended
      { connection := some HubConnectionState.Disconnected,
        isConnected := false, reconnectAttempts := 2 } true).1,
   (c8_stop_amended
      { connection := some HubConnectionState.Disconnected,
        isConnected := false, reconnectAttempts := 2 } true).2.2 rfl rfl⟩

/-! ## Payout workflow (PayoutManagement component)

Embedding of the payout state machine driven by `PayoutManagement.tsx`:
the record fields the workflow reads (`status`, `imageUrl`), the
component state (`selectedPayout`, the modal flags, the pending upload
file, the description text), and one step function per UI event.  Action
buttons carry the render guards of the source (start: line 388, upload:
line 403, complete: line 413; the modal bodies render only when the
modal flag is set and `selectedPayout` is non-null, lines 449 and 520).
Remote outcomes are event parameters; on success the refreshed record
(React Query refetch after `invalidateQueries`) carries the server-side
effect of the call, on failure nothing changes locally. -/

/-- `PayoutRequest.status`: `'NOTPAID' | 'BUSY' | 'PAID'`. -/
inductive PayoutStatus
  | NOTPAID
  | BUSY
  | PAID
deriving DecidableEq, Repr

/-- The fields of `PayoutRequest` the workflow logic reads. -/
structure Payout where
  id : String
  status : PayoutStatus
  imageUrl : Option String
deriving DecidableEq, Repr

/-- `CompletePayoutRequest` from `lib/api/payout.ts`. -/
structure CompletePayoutRequest where
  payoutId : String
  transactionCode : String
  description : String
deriving DecidableEq, Repr

/-- The argument record `handleCompletePayout` passes to
`completePayoutMutation.mutateAsync`: the transaction code is always
auto-generated from the current time and the description falls back to
`'Payout completed'` when blank after trimming. -/
def completeMutationArgs (payoutId : String) (now : Nat) (description : String) :
    CompletePayoutRequest :=
  { payoutId := payoutId
    transactionCode := "AUTO_" ++ toString now
    description := if description.trim == "" then "Payout completed" else description.trim }

/-- The remote calls the payout workflow can issue. -/
inductive RemoteCall
  | startProcessing (payoutId : String) (staffId : String)
  | uploadProof (payoutId : String) (imageFile : String)
  | completePayout (req : CompletePayoutRequest)
deriving DecidableEq, Repr

/-- Whether a list of emitted calls contains a complete-payout call. -/
def hasCompleteCall (calls : List RemoteCall) : Bool :=
  calls.any fun c =>
    match c with
    | RemoteCall.completePayout _ => true
    | _ => false

/-- The `PayoutManagement` component state relevant to the workflow. -/
structure PMState where
  payout : Payout
  selectedPayout : Option Payout
  showUploadModal : Bool
  showCompleteModal : Bool
  uploadFile : Option String
  description : String
deriving DecidableEq, Repr

/-- UI events of the payout workflow.  Remote outcomes ride on the event:
`submitUpload (some url)` is a successful upload whose refreshed record
stores `url`; `submitComplete now ok` carries `Date.now()` and the
outcome of the complete call. -/
inductive PMEvent
  | clickStartProcessing (ok : Bool)
  | clickOpenUpload
  | chooseFile (f : Option String)
  | submitUpload (result : Option String)
  | cancelUpload
  | clickOpenComplete
  | editDescription (d : String)
  | submitComplete (now : Nat) (ok : Bool)
  | cancelComplete
deriving DecidableEq, Repr

/-- One step of the component.  Returns the next state and the remote
calls issued during the step. -/
def pmStep (staffId : String) (s : PMState) : PMEvent → PMState × List RemoteCall
  | PMEvent.clickStartProcessing ok =>
      -- Start button rendered only when `payout.status === 'NOTPAID'`;
      -- `handleStartProcessing` (confirm accepted) awaits the mutation.
      if s.payout.status == PayoutStatus.NOTPAID then
        if ok then
          ({ s with payout := { s.payout with status := PayoutStatus.BUSY } },
            [RemoteCall.startProcessing s.payout.id staffId])
        else
          (s, [RemoteCall.startProcessing s.payout.id staffId])
      else (s, [])
  | PMEvent.clickOpenUpload =>
      -- Upload button rendered only when `status === 'BUSY' && !payout.imageUrl`.
      if (s.payout.status == PayoutStatus.BUSY) && !(jsTruthy s.payout.imageUrl) then
        ({ s with selectedPayout := some s.payout, showUploadModal := true }, [])
      else (s, [])
  | PMEvent.chooseFile f =>
      if s.showUploadModal then ({ s with uploadFile := f }, []) else (s, [])
  | PMEvent.submitUpload result =>
      -- Upload modal rendered only when `showUploadModal && selectedPayout`;
      -- `handleUploadProof` rejects without a remote call when
      -- `!uploadFile || !selectedPayout`; on success it closes the upload
      -- modal, clears the file and opens the complete modal, keeping
      -- `selectedPayout`.
      if s.showUploadModal then
        match s.selectedPayout with
        | none => (s, [])
        | some sel =>
            match s.uploadFile with
            | none => (s, [])
            | some f =>
                match result with
                | some url =>
                    ({ s with payout := { s.payout with imageUrl := some url },
                              showUploadModal := false, uploadFile := none,
                              showCompleteModal := true },
                      [RemoteCall.uploadProof sel.id f])
                | none => (s, [RemoteCall.uploadProof sel.id f])
      else (s, [])
  | PMEvent.cancelUpload =>
      if s.showUploadModal then
        ({ s with showUploadModal := false, uploadFile := none, selectedPayout := none }, [])
      else (s, [])
  | PMEvent.clickOpenComplete =>
      -- Complete button rendered only when `status === 'BUSY' && payout.imageUrl`.
      if (s.payout.status == PayoutStatus.BUSY) && jsTruthy s.payout.imageUrl then
        ({ s with selectedPayout := some s.payout, showCompleteModal := true }, [])
      else (s, [])
  | PMEvent.editDescription d =>
      if s.showCompleteModal then ({ s with description := d }, []) else (s, [])
  | PMEvent.submitComplete now ok =>
      -- Complete modal rendered only when `showCompleteModal && selectedPayout`;
      -- `handleCompletePayout` rejects without a remote call when
      -- `!selectedPayout`; on success it closes the modal and resets the
      -- description and selection.
      if s.showCompleteModal then
        match s.selectedPayout with
        | none => (s, [])
        | some sel =>
            let req := completeMutationArgs sel.id now s.description
            if ok then
              ({ s with payout := { s.payout with status := PayoutStatus.PAID },
                        showCompleteModal := false, description := "",
                        selectedPayout := none },
                [RemoteCall.completePayout req])
            else (s, [RemoteCall.completePayout req])
      else (s, [])
  | PMEvent.cancelComplete =>
      if s.showCompleteModal then
        ({ s with showCompleteModal := false, description := "", selectedPayout := none }, [])
      else (s, [])

/-- Initial component state over a fetched record `p`: all modals closed,
nothing selected, empty inputs. -/
def initPM (p : Payout) : PMState :=
  { payout := p, selectedPayout := none, showUploadModal := false,
    showCompleteModal := false, uploadFile := none, description := "" }

/-- Run the component over a sequence of events. -/
def pmRun (staffId : String) (s : PMState) : List PMEvent → PMState
  | [] => s
  | e :: es => pmRun staffId (pmStep staffId s e).1 es

/-- Environment assumption on events: a successful upload stores a
non-empty image URL on the record. -/
def wfPMEvent : PMEvent → Bool
  | PMEvent.submitUpload (some url) => !(url == "")
  | _ => true

/-- All events of a trace are well formed. -/
def wfPMTrace (tr : List PMEvent) : Bool := tr.all wfPMEvent

/-- Workflow invariant: the upload modal implies a `BUSY` record with no
proof yet, the complete modal implies a `BUSY` record with a truthy
(non-empty) proof image URL, and the two modals are never open at once. -/
def pmInv (s : PMState) : Prop :=
  (s.showUploadModal = true →
      s.payout.status = PayoutStatus.BUSY ∧ jsTruthy s.payout.imageUrl = false) ∧
  (s.showCompleteModal = true →
      s.payout.status = PayoutStatus.BUSY ∧ jsTruthy s.payout.imageUrl = true) ∧
  ¬(s.showUploadModal = true ∧ s.showCompleteModal = true)

theorem pmInv_step (staffId : String) (s : PMState) (e : PMEvent)
    (hwf : wfPMEvent e = true) (h : pmInv s) : pmInv (pmStep staffId s e).1 := by
  obtain ⟨h1, h2, h3⟩ := h
  cases e with
  | clickStartProcessing ok =>
      by_cases hc : (s.payout.status == PayoutStatus.NOTPAID) = true
      · have hst : s.payout.status = PayoutStatus.NOTPAID := by
          simpa using hc
        have hu : s.showUploadModal = false := by
          cases hu : s.showUploadModal with
          | false => rfl
          | true => exact absurd (h1 hu).1 (by simp [hst])
        have hcm : s.showCompleteModal = false := by
          cases hcm : s.showCompleteModal with
          | false => rfl
          | true => exact absurd (h2 hcm).1 (by simp [hst])
        cases ok <;> simp [pmStep, hc, pmInv, hu, hcm]
      · have hunch : (pmStep staffId s (PMEvent.clickStartProcessing ok)).1 = s := by
          simp [pmStep, hc]
        rw [hunch]
        exact ⟨h1, h2, h3⟩
  | clickOpenUpload =>
      by_cases hc : ((s.payout.status == PayoutStatus.BUSY) && !(jsTruthy s.payout.imageUrl)) = true
      · have hst : s.payout.status = PayoutStatus.BUSY := by
          have := (Bool.and_eq_true _ _).mp hc
          simpa using this.1
        have himg : jsTruthy s.payout.imageUrl = false := by
          have := (Bool.and_eq_true _ _).mp hc
          simpa using this.2
        have hcm : s.showCompleteModal = false := by
          cases hcm : s.showCompleteModal with
          | false => rfl
          | true => exact absurd (h2 hcm).2 (by simp [himg])
        simp [pmStep, hc, pmInv, hst, himg, hcm]
      · have hunch : (pmStep staffId s PMEvent.clickOpenUpload).1 = s := by
          simp [pmStep, hc]
        rw [hunch]
        exact ⟨h1, h2, h3⟩
  | chooseFile f =>
      by_cases hc : s.showUploadModal = true
      · simp only [pmStep, hc, if_true]
        exact ⟨fun _ => h1 hc, fun hcm => h2 hcm, fun hb => h3 ⟨hc, hb.2⟩⟩
      · have hunch : (pmStep staffId s (PMEvent.chooseFile f)).1 = s := by
          simp [pmStep, hc]
        rw [hunch]
        exact ⟨h1, h2, h3⟩
  | submitUpload result =>
      by_cases hc : s.showUploadModal = true
      · cases hsel : s.selectedPayout with
        | none =>
            have hunch : (pmStep staffId s (PMEvent.submitUpload result)).1 = s := by
              simp [pmStep, hc, hsel]
            rw [hunch]
            exact ⟨h1, h2, h3⟩
        | some sel =>
            cases hfile : s.uploadFile with
            | none =>
                have hunch : (pmStep staffId s (PMEvent.submitUpload result)).1 = s := by
                  simp [pmStep, hc, hsel, hfile]
                rw [hunch]
                exact ⟨h1, h2, h3⟩
            | some f =>
                cases result with
                | none =>
                    have hunch : (pmStep staffId s (PMEvent.submitUpload none)).1 = s := by
                      simp [pmStep, hc, hsel, hfile]
                    rw [hunch]
                    exact ⟨h1, h2, h3⟩
                | some url =>
                    have hurl : (!(url == "")) = true := by simpa [wfPMEvent] using hwf
                    have hst : s.payout.status = PayoutStatus.BUSY := (h1 hc).1
                    simp [pmStep, hc, hsel, hfile, pmInv, hst, jsTruthy, hurl]
      · have hunch : (pmStep staffId s (PMEvent.submitUpload result)).1 = s := by
          simp [pmStep, hc]
        rw [hunch]
        exact ⟨h1, h2, h3⟩
  | cancelUpload =>
      by_cases hc : s.showUploadModal = true
      · simp only [pmStep, hc, if_true]
        exact ⟨by simp, fun hcm => h2 hcm, by simp⟩
      · have hunch : (pmStep staffId s PMEvent.cancelUpload).1 = s := by
          simp [pmStep, hc]
        rw [hunch]
        exact ⟨h1, h2, h3⟩
  | clickOpenComplete =>
      by_cases hc : ((s.payout.status == PayoutStatus.BUSY) && jsTruthy s.payout.imageUrl) = true
      · have hst : s.payout.status = PayoutStatus.BUSY := by
          have := (Bool.and_eq_true _ _).mp hc
          simpa using this.1
        have himg : jsTruthy s.payout.imageUrl = true := (Bool.and_eq_true _ _).mp hc |>.2
        have hu : s.showUploadModal = false := by
          cases hu : s.showUploadModal with
          | false => rfl
          | true => exact absurd (h1 hu).2 (by simp [himg])
        simp [pmStep, hc, pmInv, hst, himg, hu]
      · have hunch : (pmStep staffId s PMEvent.clickOpenComplete).1 = s := by
          simp [pmStep, hc]
        rw [hunch]
        exact ⟨h1, h2, h3⟩
  | editDescription d =>
      by_cases hc : s.showCompleteModal = true
      · simp only [pmStep, hc, if_true]
        exact ⟨fun hu => h1 hu, fun _ => h2 hc, fun hb => h3 ⟨hb.1, hc⟩⟩
      · have hunch : (pmStep staffId s (PMEvent.editDescription d)).1 = s := by
          simp [pmStep, hc]
        rw [hunch]
        exact ⟨h1, h2, h3⟩
  | submitComplete now ok =>
      by_cases hc : s.showCompleteModal = true
      · cases hsel : s.selectedPayout with
        | none =>
            have hunch : (pmStep staffId s (PMEvent.submitComplete now ok)).1 = s := by
              simp [pmStep, hc, hsel]
            rw [hunch]
            exact ⟨h1, h2, h3⟩
        | some sel =>
            have hu : s.showUploadModal = false := by
              cases hu : s.showUploadModal with
              | false => rfl
              | true => exact absurd ⟨hu, hc⟩ h3
            cases ok with
            | true => simp [pmStep, hc, hsel, pmInv, hu]
            | false =>
                have hunch : (pmStep staffId s (PMEvent.submitComplete now false)).1 = s := by
                  simp [pmStep, hc, hsel]
                rw [hunch]
                exact ⟨h1, h2, h3⟩
      · have hunch : (pmStep staffId s (PMEvent.submitComplete now ok)).1 = s := by
          simp [pmStep, hc]
        rw [hunch]
        exact ⟨h1, h2, h3⟩
  | cancelComplete =>
      by_cases hc : s.showCompleteModal = true
      · simp only [pmStep, hc, if_true]
        exact ⟨fun hu => h1 hu, by simp, by simp⟩
      · have hunch : (pmStep staffId s PMEvent.cancelComplete).1 = s := by
          simp [pmStep, hc]
        rw [hunch]
        exact ⟨h1, h2, h3⟩

theorem pmInv_run (staffId : String) (tr : List PMEvent) (s : PMState)
    (hwf : wfPMTrace tr = true) (h : pmInv s) : pmInv (pmRun staffId s tr) := by
  induction tr generalizing s with
  | nil => simpa [pmRun] using h
  | cons e es ih =>
      have hboth : wfPMEvent e = true ∧ es.all wfPMEvent = true := by
        simpa [wfPMTrace, Bool.and_eq_true] using hwf
      have hwfe : wfPMEvent e = true := hboth.1
      have hwfes : wfPMTrace es = true := hboth.2
      exact ih (pmStep staffId s e).1 hwfes (pmInv_step staffId s e hwfe h)

theorem initPM_inv (p : Payout) : pmInv (initPM p) := by
  simp [pmInv, initPM]

/-- A complete-payout call is only ever emitted while the complete modal
is open with a selection. -/
theorem hasCompleteCall_requires_modal (staffId : String) (s : PMState) (e : PMEvent)
    (h : hasCompleteCall (pmStep staffId s e).2 = true) : s.showCompleteModal = true := by
  cases e with
  | clickStartProcessing ok =>
      by_cases hc : (s.payout.status == PayoutStatus.NOTPAID) = true
      · cases ok <;> simp [pmStep, hc, hasCompleteCall] at h
      · simp [pmStep, hc, hasCompleteCall] at h
  | clickOpenUpload =>
      by_cases hc : ((s.payout.status == PayoutStatus.BUSY) && !(jsTruthy s.payout.imageUrl)) = true <;>
        simp [pmStep, hc, hasCompleteCall] at h
  | chooseFile f =>
      by_cases hc : s.showUploadModal = true <;> simp [pmStep, hc, hasCompleteCall] at h
  | submitUpload result =>
      by_cases hc : s.showUploadModal = true
      · cases hsel : s.selectedPayout with
        | none => simp [pmStep, hc, hsel, hasCompleteCall] at h
        | some sel =>
            cases hfile : s.uploadFile with
            | none => simp [pmStep, hc, hsel, hfile, hasCompleteCall] at h
            | some f =>
                cases result <;> simp [pmStep, hc, hsel, hfile, hasCompleteCall] at h
      · simp [pmStep, hc, hasCompleteCall] at h
  | cancelUpload =>
      by_cases hc : s.showUploadModal = true <;> simp [pmStep, hc, hasCompleteCall] at h
  | clickOpenComplete =>
      by_cases hc : ((s.payout.status == PayoutStatus.BUSY) && jsTruthy s.payout.imageUrl) = true <;>
        simp [pmStep, hc, hasCompleteCall] at h
  | editDescription d =>
      by_cases hc : s.showCompleteModal = true
      · exact hc
      · simp [pmStep, hc, hasCompleteCall] at h
  | submitComplete now ok =>
      by_cases hc : s.showCompleteModal = true
      · exact hc
      · simp [pmStep, hc, hasCompleteCall] at h
  | cancelComplete =>
      by_cases hc : s.showCompleteModal = true
      · exact hc
      · simp [pmStep, hc, hasCompleteCall] at h

/-- A step can newly reach `PAID` only through the complete transition,
which requires the complete modal. -/
theorem paid_entered_requires_modal (staffId : String) (s : PMState) (e : PMEvent)
    (hpre : s.payout.status ≠ PayoutStatus.PAID)
    (hpost : (pmStep staffId s e).1.payout.status = PayoutStatus.PAID) :
    s.showCompleteModal = true := by
  cases e with
  | clickStartProcessing ok =>
      by_cases hc : (s.payout.status == PayoutStatus.NOTPAID) = true
      · cases ok <;> simp [pmStep, hc] at hpost <;> exact absurd hpost hpre
      · simp [pmStep, hc] at hpost
        exact absurd hpost hpre
  | clickOpenUpload =>
      by_cases hc : ((s.payout.status == PayoutStatus.BUSY) && !(jsTruthy s.payout.imageUrl)) = true <;>
        · simp [pmStep, hc] at hpost
          exact absurd hpost hpre
  | chooseFile f =>
      by_cases hc : s.showUploadModal = true <;>
        · simp [pmStep, hc] at hpost
          exact absurd hpost hpre
  | submitUpload result =>
      by_cases hc : s.showUploadModal = true
      · cases hsel : s.selectedPayout with
        | none =>
            simp [pmStep, hc, hsel] at hpost
            exact absurd hpost hpre
        | some sel =>
            cases hfile : s.uploadFile with
            | none =>
                simp [pmStep, hc, hsel, hfile] at hpost
                exact absurd hpost hpre
            | some f =>
                cases result <;>
                  · simp [pmStep, hc, hsel, hfile] at hpost
                    exact absurd hpost hpre
      · simp [pmStep, hc] at hpost
        exact absurd hpost hpre
  | cancelUpload =>
      by_cases hc : s.showUploadModal = true <;>
        · simp [pmStep, hc] at hpost
          exact absurd hpost hpre
  | clickOpenComplete =>
      by_cases hc : ((s.payout.status == PayoutStatus.BUSY) && jsTruthy s.payout.imageUrl) = true <;>
        · simp [pmStep, hc] at hpost
          exact absurd hpost hpre
  | editDescription d =>
      by_cases hc : s.showCompleteModal = true
      · exact hc
      · simp [pmStep, hc] at hpost
        exact absurd hpost hpre
  | submitComplete now ok =>
      by_cases hc : s.showCompleteModal = true
      · exact hc
      · simp [pmStep, hc] at hpost
        exact absurd hpost hpre
  | cancelComplete =>
      by_cases hc : s.showCompleteModal = true
      · exact hc
      · simp [pmStep, hc] at hpost
        exact absurd hpost hpre

/-- Claim C1: in every reachable state of the payout workflow, a
complete-payout remote call is emitted only while the record is `BUSY`
with a truthy (non-empty) proof image URL; while the proof image URL is
unset no event can issue the remote complete call; and a step that newly
reaches `PAID` starts from `BUSY` with the proof set. -/
theorem c1_paid_requires_busy_with_proof (p : Payout) (staffId : String)
    (tr : List PMEvent) (e : PMEvent) (hwf : wfPMTrace tr = true) :
    (hasCompleteCall (pmStep staffId (pmRun staffId (initPM p) tr) e).2 = true →
        (pmRun staffId (initPM p) tr).payout.status = PayoutStatus.BUSY ∧
        jsTruthy (pmRun staffId (initPM p) tr).payout.imageUrl = true) ∧
    (jsTruthy (pmRun staffId (initPM p) tr).payout.imageUrl = false →
        hasCompleteCall (pmStep staffId (pmRun staffId (initPM p) tr) e).2 = false) ∧
    ((pmRun staffId (initPM p) tr).payout.status ≠ PayoutStatus.PAID →
        (pmStep staffId (pmRun staffId (initPM p) tr) e).1.payout.status = PayoutStatus.PAID →
        (pmRun staffId (initPM p) tr).payout.status = PayoutStatus.BUSY ∧
        jsTruthy (pmRun staffId (initPM p) tr).payout.imageUrl = true) := by
  have hinv : pmInv (pmRun staffId (initPM p) tr) :=
    pmInv_run staffId tr (initPM p) hwf (initPM_inv p)
  obtain ⟨hi1, hi2, hi3⟩ := hinv
  refine ⟨?_, ?_, ?_⟩
  · intro h
    exact hi2 (hasCompleteCall_requires_modal staffId _ e h)
  · intro himg
    cases hcall : hasCompleteCall (pmStep staffId (pmRun staffId (initPM p) tr) e).2 with
    | false => rfl
    | true =>
        have := hi2 (hasCompleteCall_requires_modal staffId _ e hcall)
        rw [this.2] at himg
        exact absurd himg (by simp)
  · intro hpre hpost
    exact hi2 (paid_entered_requires_modal staffId _ e hpre hpost)

/-- Witness for C1 at a concrete record, trace and event: a `BUSY` record
with no proof image; a complete click issues no remote call. -/
theorem c1_witness :
    (hasCompleteCall (pmStep "staff-1"
        (pmRun "staff-1" (initPM { id := "p1", status := PayoutStatus.BUSY, imageUrl := none })
          [PMEvent.clickOpenUpload])
        (PMEvent.submitComplete 0 true)).2 = true →
        (pmRun "staff-1" (initPM { id := "p1", status := PayoutStatus.BUSY, imageUrl := none })
          [PMEvent.clickOpenUpload]).payout.status = PayoutStatus.BUSY ∧
        jsTruthy (pmRun "staff-1"
          (initPM { id := "p1", status := PayoutStatus.BUSY, imageUrl := none })
          [PMEvent.clickOpenUpload]).payout.imageUrl = true) ∧
    (jsTruthy (pmRun "staff-1"
        (initPM { id := "p1", status := PayoutStatus.BUSY, imageUrl := none })
        [PMEvent.clickOpenUpload]).payout.imageUrl = false →
        hasCompleteCall (pmStep "staff-1"
          (pmRun "staff-1" (initPM { id := "p1", status := PayoutStatus.BUSY, imageUrl := none })
            [PMEvent.clickOpenUpload])
          (PMEvent.submitComplete 0 true)).2 = false) ∧
    ((pmRun "staff-1" (initPM { id := "p1", status := PayoutStatus.BUSY, imageUrl := none })
        [PMEvent.clickOpenUpload]).payout.status ≠ PayoutStatus.PAID →
        (pmStep "staff-1"
          (pmRun "staff-1" (initPM { id := "p1", status := PayoutStatus.BUSY, imageUrl := none })
            [PMEvent.clickOpenUpload])
          (PMEvent.submitComplete 0 true)).1.payout.status = PayoutStatus.PAID →
        (pmRun "staff-1" (initPM { id := "p1", status := PayoutStatus.BUSY, imageUrl := none })
          [PMEvent.clickOpenUpload]).payout.status = PayoutStatus.BUSY ∧
        jsTruthy (pmRun "staff-1"
          (initPM { id := "p1", status := PayoutStatus.BUSY, imageUrl := none })
          [PMEvent.clickOpenUpload]).payout.imageUrl = true) :=
  c1_paid_requires_busy_with_proof
    { id := "p1", status := PayoutStatus.BUSY, imageUrl := none } "staff-1"
    [PMEvent.clickOpenUpload] (PMEvent.submitComplete 0 true) (by decide)

/-! ## Session storage, 401 handling, session restore

Embedding of the axios response interceptor (`api.config.ts`), the
user-list fetch (`userAPI.getAllUsers`), and the startup session-restore
effect of `App.tsx`.  `localStorage` is threaded explicitly so theorems
can talk about which operations touch it. -/

/-- The two persisted session keys. -/
structure LocalStorage where
  staff_token : Option String
  staff_user : Option String
deriving DecidableEq, Repr

/-- Generic `isOk` on `Except`. -/
def isOkExcept {ε : Type} {α : Type} : Except ε α → Bool
  | Except.ok _ => true
  | Except.error _ => false

/-- The axios response error interceptor of `apiClient`: when
`error.response?.status === 401` it removes `staff_token` and
`staff_user` and reloads the page (the boolean); every other error
passes through untouched. -/
def apiClientOnError (status : Option Nat) (st : LocalStorage) : LocalStorage × Bool :=
  match status with
  | some 401 => ({ staff_token := none, staff_user := none }, true)
  | _ => (st, false)

/-- An HTTP response as seen by `fetch` callers. -/
structure HttpResponse (β : Type) where
  ok : Bool
  status : Nat
  statusText : String
  body : β
deriving DecidableEq, Repr

/-- Opaque paginated user payload (`data.data` of the backend body). -/
structure UsersPage where
  raw : String
deriving DecidableEq, Repr

/-- The parsed JSON body of the user-list endpoint; absent fields are
`none`. -/
structure UsersJsonBody where
  data : Option UsersPage
  code : Option String
  message : Option String
deriving DecidableEq, Repr

/-- `data.data || data`: the nested payload when present, otherwise the
whole body. -/
def getAllUsersData (body : UsersJsonBody) : Sum UsersPage UsersJsonBody :=
  match body.data with
  | some d => Sum.inl d
  | none => Sum.inr body

/-- The `ApiResponse` record `getAllUsers` builds on success. -/
structure UsersApiResult where
  data : Sum UsersPage UsersJsonBody
  statusCode : Nat
  code : String
  message : Option String
deriving DecidableEq, Repr

/-- A rejected `fetch` (or abort): the JS error's name and message. -/
structure FetchError where
  name : String
  message : String
deriving DecidableEq, Repr

/-- Substring test via `splitOn`: the pattern occurs iff splitting yields
more than one piece. -/
def strContains (s pat : String) : Bool := (s.splitOn pat).length != 1

/-- The catch-block of `getAllUsers`: aborts become a timeout message,
connection failures a connectivity message, anything else is re-thrown. -/
def mapGetAllUsersError (e : FetchError) : String :=
  if e.name == "AbortError" then "Request timeout - please try again"
  else if strContains e.message "Failed to fetch"
      || strContains e.message "ERR_CONNECTION_TIMED_OUT" then
    "Unable to connect to server - please check your connection"
  else e.message

/-- `userAPI.getAllUsers` response handling: a non-ok response (including
HTTP 401) throws `HTTP {status}: {statusText}`; an ok response returns
the `ApiResponse` record.  The function only ever reads `localStorage`
(for the bearer token), so the storage is returned unchanged on every
path. -/
def getAllUsers (resp : Except FetchError (HttpResponse UsersJsonBody))
    (st : LocalStorage) : Except String UsersApiResult × LocalStorage :=
  match resp with
  | Except.error e => (Except.error (mapGetAllUsersError e), st)
  | Except.ok r =>
      if !r.ok then
        (Except.error ("HTTP " ++ toString r.status ++ ": " ++ r.statusText), st)
      else
        (Except.ok
          { data := getAllUsersData r.body
            statusCode := r.status
            code := jsOrElse r.body.code "SUCCESS"
            message := r.body.message }, st)

/-- The `User` record parsed from `staff_user` (App.tsx). -/
structure User where
  id : String
  username : String
  fullName : String
  email : String
  role : String
deriving DecidableEq, Repr

/-- The two views `App` can render. -/
inductive AppView
  | login
  | dashboard
deriving DecidableEq, Repr

/-- The startup effect of `App.tsx`: when both `staff_token` and
`staff_user` are present (JS-truthy), parse the stored user; a parse
failure clears both keys and restores no session; when either key is
absent nothing is restored and the storage is left alone.  `parse`
models `JSON.parse` (`none` = throws). -/
def sessionRestore (st : LocalStorage) (parse : String → Option User) :
    LocalStorage × Option User :=
  if jsTruthy st.staff_token && jsTruthy st.staff_user then
    match parse (st.staff_user.getD "") with
    | some u => (st, some u)
    | none => ({ staff_token := none, staff_user := none }, none)
  else (st, none)

/-- `App`'s render: no user means the login view. -/
def appRender (user : Option User) : AppView :=
  if user.isNone then AppView.login else AppView.dashboard

/-- Counterexample to claim C4 as stated: an HTTP 401 on the user-list
fetch (which uses a raw `fetch`, not the axios client) throws an error
and leaves the stored session token and profile untouched, so the UI is
not forced to the login view by this request. -/
theorem c4_counterexample :
    (getAllUsers
        (Except.ok { ok := false, status := 401, statusText := "Unauthorized",
                     body := { data := none, code := none, message := none } })
        { staff_token := some "tok", staff_user := some "stored-user" }).2
      = { staff_token := some "tok", staff_user := some "stored-user" } ∧
    isOkExcept (getAllUsers
        (Except.ok { ok := false, status := 401, statusText := "Unauthorized",
                     body := { data := none, code := none, message := none } })
        { staff_token := some "tok", staff_user := some "stored-user" }).1
      = false := by
  constructor
  · rfl
  · rfl

/-- Claim C4 as amended: only requests routed through the axios
`apiClient` clear the stored session on a 401 (removing both keys and
reloading, after which the restore effect lands on the login view); the
user-list fetch never touches the stored session: on any response,
including a 401, it returns the storage unchanged, and on a non-ok
response it throws. -/
theorem c4_amended (st : LocalStorage) (parse : String → Option User)
    (resp : Except FetchError (HttpResponse UsersJsonBody))
    (r : HttpResponse UsersJsonBody) :
    (apiClientOnError (some 401) st
        = ({ staff_token := none, staff_user := none }, true)) ∧
    (appRender (sessionRestore { staff_token := none, staff_user := none } parse).2
        = AppView.login) ∧
    ((getAllUsers resp st).2 = st) ∧
    (r.ok = false → isOkExcept (getAllUsers (Except.ok r) st).1 = false) := by
  refine ⟨rfl, rfl, ?_, ?_⟩
  · cases resp with
    | error e => rfl
    | ok r0 => cases hok : r0.ok <;> simp [getAllUsers, hok]
  · intro hok
    simp [getAllUsers, hok, isOkExcept]

/-- Witness for C4 (amended) at concrete inputs. -/
theorem c4_witness :
    isOkExcept (getAllUsers
        (Except.ok { ok := false, status := 401, statusText := "Unauthorized",
                     body := { data := none, code := none, message := none } })
        { staff_token := some "tok", staff_user := some "stored-user" }).1
      = false :=
  (c4_amended { staff_token := some "tok", staff_user := some "stored-user" }
    (fun _ => none)
    (Except.ok { ok := false, status := 401, statusText := "Unauthorized",
                 body := { data := none, code := none, message := none } })
    { ok := false, status := 401, statusText := "Unauthorized",
      body := { data := none, code := none, message := none } }).2.2.2 rfl

/-- Claim C9: on startup, when both stored values are present but parsing
the user record throws, both keys are removed and the app renders the
login view; when either value is absent (or empty), no session is
restored, the storage is untouched and the login view renders. -/
theorem c9_session_restore (st : LocalStorage) (parse : String → Option User) :
    ((jsTruthy st.staff_token && jsTruthy st.staff_user) = true →
        parse (st.staff_user.getD "") = none →
        sessionRestore st parse = ({ staff_token := none, staff_user := none }, none) ∧
        appRender (sessionRestore st parse).2 = AppView.login) ∧
    ((jsTruthy st.staff_token && jsTruthy st.staff_user) = false →
        sessionRestore st parse = (st, none) ∧
        appRender (sessionRestore st parse).2 = AppView.login) := by
  constructor
  · intro hc hp
    constructor
    · simp [sessionRestore, hc, hp]
    · simp [sessionRestore, hc, hp, appRender]
  · intro hc
    constructor
    · simp [sessionRestore, hc]
    · simp [sessionRestore, hc, appRender]

/-- Witness for C9: stored token and user present, parse fails. -/
theorem c9_witness :
    sessionRestore { staff_token := some "tok", staff_user := some "not-json" }
        (fun _ => none)
      = ({ staff_token := none, staff_user := none }, none) ∧
    appRender (sessionRestore
        { staff_token := some "tok", staff_user := some "not-json" }
        (fun _ => none)).2 = AppView.login :=
  (c9_session_restore { staff_token := some "tok", staff_user := some "not-json" }
    (fun _ => none)).1 (by decide) rfl

/-! ## StaffPayoutAPI (lib/api/payout.ts)

Each operation runs `fetch`, throws on a non-ok HTTP status, parses the
body as `StaffApiResponse<T>`, returns the payload only when
`statusCode === 200 && data`, and otherwise throws
`message || code || <fallback>`; the outer catch re-throws with
`error.message || 'Network error'`.  A rejected `fetch`/`json()` is the
`Except.error` input case. -/

/-- `a || b` on plain strings (empty string is falsy). -/
def jsOrStr (a b : String) : String := if a == "" then b else a

/-- `StaffApiResponse<T>` as parsed from the body; `data` is `none` when
null or absent, `message` when absent. -/
structure StaffApiResponse (α : Type) where
  data : Option α
  message : Option String
  statusCode : Int
  code : String
deriving DecidableEq, Repr

/-- The page object of the payout-list endpoint
(`{ data: PayoutRequest[], pageIndex, totalCount }`). -/
structure PayoutPage where
  data : List Payout
  pageIndex : Nat
  totalCount : Nat
deriving DecidableEq, Repr

/-- The error string thrown when the success check fails:
`result.message || result.code || fallback`. -/
def envelopeError {α : Type} (result : StaffApiResponse α) (fallback : String) : String :=
  jsOrElse result.message (jsOrStr result.code fallback)

/-- The outer catch: `throw new Error(error.message || 'Network error')`. -/
def rethrowNetwork {α : Type} : Except String α → Except String α
  | Except.ok v => Except.ok v
  | Except.error m => Except.error (jsOrStr m "Network error")

/-- `getAllPayoutRequests`: returns `result.data.data` only for an ok
response whose body has `statusCode === 200` and truthy `data`. -/
def getAllPayoutRequests (resp : Except String (HttpResponse (StaffApiResponse PayoutPage))) :
    Except String (List Payout) :=
  rethrowNetwork <|
    match resp with
    | Except.error m => Except.error m
    | Except.ok r =>
        if !r.ok then Except.error ("HTTP error! status: " ++ toString r.status)
        else
          match r.body.data with
          | some d =>
              if r.body.statusCode == 200 then Except.ok d.data
              else Except.error (envelopeError r.body "Failed to fetch payout requests")
          | none => Except.error (envelopeError r.body "Failed to fetch payout requests")

/-- `startProcessingPayout`: same envelope handling returning the updated
record. -/
def startProcessingPayout (resp : Except String (HttpResponse (StaffApiResponse Payout))) :
    Except String Payout :=
  rethrowNetwork <|
    match resp with
    | Except.error m => Except.error m
    | Except.ok r =>
        if !r.ok then Except.error ("HTTP error! status: " ++ toString r.status)
        else
          match r.body.data with
          | some d =>
              if r.body.statusCode == 200 then Except.ok d
              else Except.error (envelopeError r.body "Failed to start processing payout")
          | none => Except.error (envelopeError r.body "Failed to start processing payout")

/-- `uploadProof`: same envelope handling returning the updated record. -/
def uploadProof (resp : Except String (HttpResponse (StaffApiResponse Payout))) :
    Except String Payout :=
  rethrowNetwork <|
    match resp with
    | Except.error m => Except.error m
    | Except.ok r =>
        if !r.ok then Except.error ("HTTP error! status: " ++ toString r.status)
        else
          match r.body.data with
          | some d =>
              if r.body.statusCode == 200 then Except.ok d
              else Except.error (envelopeError r.body "Failed to upload proof")
          | none => Except.error (envelopeError r.body "Failed to upload proof")

/-- `completePayout`: same envelope handling returning the updated
record. -/
def completePayout (resp : Except String (HttpResponse (StaffApiResponse Payout))) :
    Except String Payout :=
  rethrowNetwork <|
    match resp with
    | Except.error m => Except.error m
    | Except.ok r =>
        if !r.ok then Except.error ("HTTP error! status: " ++ toString r.status)
        else
          match r.body.data with
          | some d =>
              if r.body.statusCode == 200 then Except.ok d
              else Except.error (envelopeError r.body "Failed to complete payout")
          | none => Except.error (envelopeError r.body "Failed to complete payout")

/-- The success condition of the envelope check: the fetch resolved, the
HTTP status was ok, and the parsed body has `statusCode === 200` with
truthy `data`. -/
def isSuccessEnvelope {α : Type} :
    Except String (HttpResponse (StaffApiResponse α)) → Bool
  | Except.error _ => false
  | Except.ok r => r.ok && (r.body.statusCode == 200) && r.body.data.isSome

theorem rethrowNetwork_isOk {α : Type} (x : Except String α) :
    isOkExcept (rethrowNetwork x) = isOkExcept x := by
  cases x <;> rfl

/-- Claim C10: every payout API operation returns a value exactly when the
response is ok with body statusCode 200 and non-null data; in every other
case (network failure, non-ok HTTP status, non-200 body statusCode, or
missing data) it throws; and in the success case the returned value is
the body's payload. -/
theorem c10_payout_api_success_iff
    (respL : Except String (HttpResponse (StaffApiResponse PayoutPage)))
    (resp : Except String (HttpResponse (StaffApiResponse Payout)))
    (rL : HttpResponse (StaffApiResponse PayoutPage))
    (r : HttpResponse (StaffApiResponse Payout))
    (pg : PayoutPage) (p : Payout) :
    (isOkExcept (getAllPayoutRequests respL) = isSuccessEnvelope respL) ∧
    (isOkExcept (startProcessingPayout resp) = isSuccessEnvelope resp) ∧
    (isOkExcept (uploadProof resp) = isSuccessEnvelope resp) ∧
    (isOkExcept (completePayout resp) = isSuccessEnvelope resp) ∧
    (rL.ok = true → rL.body.statusCode = 200 → rL.body.data = some pg →
        getAllPayoutRequests (Except.ok rL) = Except.ok pg.data) ∧
    (r.ok = true → r.body.statusCode = 200 → r.body.data = some p →
        startProcessingPayout (Except.ok r) = Except.ok p ∧
        uploadProof (Except.ok r) = Except.ok p ∧
        completePayout (Except.ok r) = Except.ok p) := by
  refine ⟨?_, ?_, ?_, ?_, ?_, ?_⟩
  · rw [getAllPayoutRequests.eq_def, rethrowNetwork_isOk]
    cases respL with
    | error m => rfl
    | ok r0 =>
        cases hok : r0.ok with
        | false => simp [isSuccessEnvelope, hok, isOkExcept]
        | true =>
            cases hdata : r0.body.data with
            | none => simp [isSuccessEnvelope, hok, hdata, isOkExcept]
            | some d =>
                by_cases hsc : (r0.body.statusCode == 200) = true <;>
                  simp [isSuccessEnvelope, hok, hdata, hsc, isOkExcept]
  · rw [startProcessingPayout.eq_def, rethrowNetwork_isOk]
    cases resp with
    | error m => rfl
    | ok r0 =>
        cases hok : r0.ok with
        | false => simp [isSuccessEnvelope, hok, isOkExcept]
        | true =>
            cases hdata : r0.body.data with
            | none => simp [isSuccessEnvelope, hok, hdata, isOkExcept]
            | some d =>
                by_cases hsc : (r0.body.statusCode == 200) = true <;>
                  simp [isSuccessEnvelope, hok, hdata, hsc, isOkExcept]
  · rw [uploadProof.eq_def, rethrowNetwork_isOk]
    cases resp with
    | error m => rfl
    | ok r0 =>
        cases hok : r0.ok with
        | false => simp [isSuccessEnvelope, hok, isOkExcept]
        | true =>
            cases hdata : r0.body.data with
            | none => simp [isSuccessEnvelope, hok, hdata, isOkExcept]
            | some d =>
                by_cases hsc : (r0.body.statusCode == 200) = true <;>
                  simp [isSuccessEnvelope, hok, hdata, hsc, isOkExcept]
  · rw [completePayout.eq_def, rethrowNetwork_isOk]
    cases resp with
    | error m => rfl
    | ok r0 =>
        cases hok : r0.ok with
        | false => simp [isSuccessEnvelope, hok, isOkExcept]
        | true =>
            cases hdata : r0.body.data with
            | none => simp [isSuccessEnvelope, hok, hdata, isOkExcept]
            | some d =>
                by_cases hsc : (r0.body.statusCode == 200) = true <;>
                  simp [isSuccessEnvelope, hok, hdata, hsc, isOkExcept]
  · intro hok hsc hdata
    simp [getAllPayoutRequests, rethrowNetwork, hok, hsc, hdata]
  · intro hok hsc hdata
    refine ⟨?_, ?_, ?_⟩
    · simp [startProcessingPayout, rethrowNetwork, hok, hsc, hdata]
    · simp [uploadProof, rethrowNetwork, hok, hsc, hdata]
    · simp [completePayout, rethrowNetwork, hok, hsc, hdata]

/-- Witness for C10 at a concrete ok response. -/
theorem c10_witness :
    getAllPayoutRequests (Except.ok
        { ok := true, status := 200, statusText := "OK",
          body := { data := some { data := [], pageIndex := 1, totalCount := 0 },
                    message := none, statusCode := 200, code := "SUCCESS" } })
      = Except.ok ([] : List Payout) :=
  (c10_payout_api_success_iff
      (Except.ok
        { ok := true, status := 200, statusText := "OK",
          body := { data := some { data := [], pageIndex := 1, totalCount := 0 },
                    message := none, statusCode := 200, code := "SUCCESS" } })
      (Except.error "unused")
      { ok := true, status := 200, statusText := "OK",
        body := { data := some { data := [], pageIndex := 1, totalCount := 0 },
                  message := none, statusCode := 200, code := "SUCCESS" } }
      { ok := false, status := 500, statusText := "err",
        body := { data := none, message := none, statusCode := 500, code := "E" } }
      { data := [], pageIndex := 1, totalCount := 0 }
      { id := "p", status := PayoutStatus.NOTPAID, imageUrl := none }).2.2.2.2.1
    rfl rfl rfl

/-! ## The complete-payout HTTP request (claim C5)

`StaffPayoutAPI.completePayout` performs
`fetch(.../payout/complete-payout/{payoutId}, { method: 'PUT', body:
JSON.stringify(request.transactionCode) })`: the body serialises the
transaction code alone; the `description` field of the argument record
is never put on the wire. -/

/-- An outgoing HTTP request (method, URL, serialised body). -/
structure HttpRequest where
  method : String
  url : String
  body : String
deriving DecidableEq, Repr

/-- `JSON.stringify` of one character of a string value (quote and
backslash are escaped; the inputs at hand contain no control
characters). -/
def jsonEscapeChar (c : Char) : String :=
  if c = '\"' then "\\\"" else if c = '\\' then "\\\\" else String.singleton c

/-- `JSON.stringify` on a string value. -/
def jsonStringifyString (s : String) : String :=
  "\"" ++ String.join (s.toList.map jsonEscapeChar) ++ "\""

/-- The request `completePayout` sends: `PUT` to
`/payout/complete-payout/{payoutId}` with the JSON-encoded transaction
code as the whole body. -/
def completePayoutHttpRequest (apiBaseUrl : String) (req : CompletePayoutRequest) :
    HttpRequest :=
  { method := "PUT"
    url := apiBaseUrl ++ "/payout/complete-payout/" ++ req.payoutId
    body := jsonStringifyString req.transactionCode }

/-- Counterexample to claim C5 as stated: two complete requests that
differ only in the staff member's description produce the identical HTTP
request, so the description is not sent to the remote call. -/
theorem c5_counterexample :
    completePayoutHttpRequest "https://api"
        { payoutId := "p1", transactionCode := "AUTO_5",
          description := "chuyen khoan xong" }
      = completePayoutHttpRequest "https://api"
        { payoutId := "p1", transactionCode := "AUTO_5", description := "" } := by
  rfl

/-- Claim C5 as amended: the complete transition always auto-generates
the transaction code as `AUTO_` followed by the current timestamp (the
staff member cannot enter one); the free-text description (defaulted to
`'Payout completed'` when blank after trimming) is passed to the API
wrapper but the HTTP request body carries only the JSON-encoded
transaction code, independent of the description. -/
theorem c5_complete_request_amended (payoutId : String) (now : Nat)
    (desc : String) (base : String) :
    (completeMutationArgs payoutId now desc).transactionCode
        = "AUTO_" ++ toString now ∧
    (completeMutationArgs payoutId now desc).description
        = (if desc.trim == "" then "Payout completed" else desc.trim) ∧
    completePayoutHttpRequest base (completeMutationArgs payoutId now desc)
        = { method := "PUT"
            url := base ++ "/payout/complete-payout/" ++ payoutId
            body := jsonStringifyString ("AUTO_" ++ toString now) } := by
  refine ⟨rfl, rfl, ?_⟩
  simp [completePayoutHttpRequest, completeMutationArgs]

/-! ## Payout mutation hooks (useStaffPayout, claim C6)

`useStartProcessingPayout` / `useUploadProof` / `useCompletePayout`:
`onSuccess` only invalidates the payout-requests query (the cached list
is refreshed from the server); `onError` only raises an error toast with
`error.message || <fallback>`.  Neither callback writes the cached list,
so there is no optimistic update. -/

/-- A toast raised through the toast utility. -/
structure Toast where
  title : String
  message : String
deriving DecidableEq, Repr

/-- The client-side state a payout mutation can observe: the cached
payout list rendered by the UI, whether the query was invalidated
(scheduling a server refetch), and the raised toasts. -/
structure MutationState where
  cache : List Payout
  invalidated : Bool
  toasts : List Toast
deriving DecidableEq, Repr

/-- `useStartProcessingPayout` settling: `onSuccess` invalidates the
query; `onError` raises the start-processing error toast. -/
def startProcessingOnSettled (result : Except String Payout) (st : MutationState) :
    MutationState :=
  match result with
  | Except.ok _ => { st with invalidated := true }
  | Except.error msg =>
      { st with toasts := st.toasts ++
          [{ title := "Lỗi xử lý payout",
             message := jsOrStr msg "Không thể bắt đầu xử lý payout. Vui lòng thử lại." }] }

/-- `useUploadProof` settling. -/
def uploadProofOnSettled (result : Except String Payout) (st : MutationState) :
    MutationState :=
  match result with
  | Except.ok _ => { st with invalidated := true }
  | Except.error msg =>
      { st with toasts := st.toasts ++
          [{ title := "Lỗi upload chứng từ",
             message := jsOrStr msg "Không thể upload chứng từ. Vui lòng thử lại." }] }

/-- `useCompletePayout` settling. -/
def completePayoutOnSettled (result : Except String Payout) (st : MutationState) :
    MutationState :=
  match result with
  | Except.ok _ => { st with invalidated := true }
  | Except.error msg =>
      { st with toasts := st.toasts ++
          [{ title := "Lỗi hoàn thành payout",
             message := jsOrStr msg "Không thể hoàn thành payout. Vui lòng thử lại." }] }

/-- Claim C6: for each payout mutation, the cached payout list is never
written by the mutation callbacks (no optimistic update); a failure only
appends an error toast carrying the failure message and does not
invalidate; a success only marks the query invalidated (so the list is
refreshed from the server after confirmation) and raises no toast. -/
theorem c6_mutations_no_optimistic_update (st : MutationState) (msg : String) (p : Payout) :
    ((startProcessingOnSettled (Except.error msg) st).cache = st.cache ∧
     (startProcessingOnSettled (Except.ok p) st).cache = st.cache ∧
     (startProcessingOnSettled (Except.error msg) st).invalidated = st.invalidated ∧
     (startProcessingOnSettled (Except.error msg) st).toasts = st.toasts ++
        [{ title := "Lỗi xử lý payout",
           message := jsOrStr msg "Không thể bắt đầu xử lý payout. Vui lòng thử lại." }] ∧
     (startProcessingOnSettled (Except.ok p) st).invalidated = true ∧
     (startProcessingOnSettled (Except.ok p) st).toasts = st.toasts) ∧
    ((uploadProofOnSettled (Except.error msg) st).cache = st.cache ∧
     (uploadProofOnSettled (Except.ok p) st).cache = st.cache ∧
     (uploadProofOnSettled (Except.error msg) st).invalidated = st.invalidated ∧
     (uploadProofOnSettled (Except.error msg) st).toasts = st.toasts ++
        [{ title := "Lỗi upload chứng từ",
           message := jsOrStr msg "Không thể upload chứng từ. Vui lòng thử lại." }] ∧
     (uploadProofOnSettled (Except.ok p) st).invalidated = true ∧
     (uploadProofOnSettled (Except.ok p) st).toasts = st.toasts) ∧
    ((completePayoutOnSettled (Except.error msg) st).cache = st.cache ∧
     (completePayoutOnSettled (Except.ok p) st).cache = st.cache ∧
     (completePayoutOnSettled (Except.error msg) st).invalidated = st.invalidated ∧
     (completePayoutOnSettled (Except.error msg) st).toasts = st.toasts ++
        [{ title := "Lỗi hoàn thành payout",
           message := jsOrStr msg "Không thể hoàn thành payout. Vui lòng thử lại." }] ∧
     (completePayoutOnSettled (Except.ok p) st).invalidated = true ∧
     (completePayoutOnSettled (Except.ok p) st).toasts = st.toasts) := by
  refine ⟨⟨rfl, rfl, rfl, rfl, rfl, rfl⟩, ⟨rfl, rfl, rfl, rfl, rfl, rfl⟩,
    ⟨rfl, rfl, rfl, rfl, rfl, rfl⟩⟩

end PackPals
